import Mathlib

/-!
Verification of the header scroll-state controller of the dextor-website
repository (documented in `src/HEADER_IMPLEMENTATION.md`, with the scroll
event listener reproduced verbatim there) and of the two Tailwind theme
configuration objects (`src/tailwind.config.mjs` and the configuration
embedded at the end of `src/HEADER_IMPLEMENTATION.md`).

The JavaScript under verification:

  const header = document.getElementById('main-header');
  let lastScroll = 0;
  window.addEventListener('scroll', () => \x7b
    const currentScroll = window.scrollY;
    if (currentScroll <= 0) \x7b
      header?.classList.remove('-translate-y-full', 'opacity-0',
        'backdrop-blur-md', 'border-white/20');
      header?.classList.add('border-gray-200', 'bg-white');
      if (header) \x7b header.style.backgroundColor = ''; \x7d
      lastScroll = currentScroll;
      return;
    \x7d
    if (currentScroll > lastScroll
        && !header?.classList.contains('-translate-y-full')) \x7b
      header?.classList.add('-translate-y-full', 'opacity-0');
    \x7d else if (currentScroll < lastScroll
        && header?.classList.contains('-translate-y-full')) \x7b
      header?.classList.remove('-translate-y-full', 'opacity-0');
    \x7d
    header?.classList.remove('border-gray-200', 'bg-white');
    header?.classList.add('backdrop-blur-md', 'border-white/20');
    if (header) \x7b
      header.style.backgroundColor = 'rgba(255, 255, 255, 0.75)';
    \x7d
    lastScroll = currentScroll;
  \x7d);

The DOM `classList` is modelled as an ordered duplicate-free token list with
the DOMTokenList operations `add` (append if absent), `remove` (filter out)
and `contains` (membership).  Optional chaining `header?.` is modelled by
`Option.map`; the JavaScript truthiness of `header?.classList.contains(c)`
(which is `undefined`, falsy, when `header` is null) is modelled by
`Option.getD _ false`.
-/

namespace Dextor

/-- DOMTokenList.remove: removes every listed token from the class list. -/
def domRemove (cl : List String) (ns : List String) : List String :=
  cl.filter (fun c => !(ns.contains c))

/-- DOMTokenList.add: appends each listed token that is not already present. -/
def domAdd (cl : List String) (ns : List String) : List String :=
  ns.foldl (fun acc n => if acc.contains n then acc else acc ++ [n]) cl

/-- The header DOM element: its class list and its inline
`style.backgroundColor` (the empty string is the removed / unset style). -/
structure HeaderElem where
  classList : List String
  backgroundColor : String
deriving DecidableEq, Repr

/-- `classList.contains` on the header element. -/
def hasClass (h : HeaderElem) (c : String) : Bool :=
  h.classList.contains c

/-- Controller state: the (possibly null) header element captured by
`document.getElementById('main-header')`, and the `lastScroll` cell. -/
structure ControllerState where
  header : Option HeaderElem
  lastScroll : Int
deriving DecidableEq, Repr

/-- The static markup of `Header.astro`:
`class="fixed w-full bg-white shadow-sm z-50 transition-all duration-500
ease-in-out border-b border-gray-200"`, with no inline background. -/
def initialHeader : HeaderElem :=
  { classList := ["fixed", "w-full", "bg-white", "shadow-sm", "z-50",
      "transition-all", "duration-500", "ease-in-out", "border-b",
      "border-gray-200"],
    backgroundColor := "" }

/-- Controller start: header attached with its static classes,
`lastScroll = 0`. -/
def initialState : ControllerState :=
  { header := some initialHeader, lastScroll := 0 }

/-- Состояние 1 applied to the header element:
`classList.remove('-translate-y-full', 'opacity-0', 'backdrop-blur-md',
'border-white/20'); classList.add('border-gray-200', 'bg-white');
style.backgroundColor = ''`. -/
def applyAtTop (h : HeaderElem) : HeaderElem :=
  { classList := domAdd
      (domRemove h.classList
        ["-translate-y-full", "opacity-0", "backdrop-blur-md",
         "border-white/20"])
      ["border-gray-200", "bg-white"],
    backgroundColor := "" }

/-- Состояние 2 applied to the header element:
`classList.add('-translate-y-full', 'opacity-0')`. -/
def applyHide (h : HeaderElem) : HeaderElem :=
  { h with classList := (domAdd h.classList ["-translate-y-full", "opacity-0"]) }

/-- Состояние 3 applied to the header element:
`classList.remove('-translate-y-full', 'opacity-0')`. -/
def applyShow (h : HeaderElem) : HeaderElem :=
  { h with classList :=
      (domRemove h.classList ["-translate-y-full", "opacity-0"]) }

/-- Состояние 4 applied to the header element:
`classList.remove('border-gray-200', 'bg-white');
classList.add('backdrop-blur-md', 'border-white/20');
style.backgroundColor = 'rgba(255, 255, 255, 0.75)'`. -/
def applyTranslucent (h : HeaderElem) : HeaderElem :=
  { classList := domAdd
      (domRemove h.classList ["border-gray-200", "bg-white"])
      ["backdrop-blur-md", "border-white/20"],
    backgroundColor := "rgba(255, 255, 255, 0.75)" }

/-- One invocation of the scroll event listener with
`currentScroll = window.scrollY`. -/
def handleScroll (s : ControllerState) (currentScroll : Int) : ControllerState :=
  if currentScroll ≤ 0 then
    -- Состояние 1: at the very top of the page
    { header := s.header.map applyAtTop, lastScroll := currentScroll }
  else
    -- truthiness of `header?.classList.contains('-translate-y-full')`
    let hiddenTruthy : Bool :=
      (s.header.map (fun h => hasClass h "-translate-y-full")).getD false
    -- Состояние 2 / Состояние 3: direction-dependent hide / show
    let afterDir : Option HeaderElem :=
      if s.lastScroll < currentScroll && !hiddenTruthy then
        s.header.map applyHide
      else if currentScroll < s.lastScroll && hiddenTruthy then
        s.header.map applyShow
      else
        s.header
    -- Состояние 4: any scrolled position becomes translucent
    { header := afterDir.map applyTranslucent, lastScroll := currentScroll }

/-- Running the controller over a whole sequence of scroll notifications. -/
def runScroll (signals : List Int) : ControllerState :=
  signals.foldl handleScroll initialState

/-- The hidden flags: translated off-screen and fully transparent. -/
def isHidden (h : HeaderElem) : Bool :=
  hasClass h "-translate-y-full" && hasClass h "opacity-0"

/-- The atTop appearance: solid white fill and gray border, none of the
translucency classes, no inline fill. -/
def isAtTop (h : HeaderElem) : Bool :=
  hasClass h "bg-white" && hasClass h "border-gray-200" &&
  !(hasClass h "backdrop-blur-md") && !(hasClass h "border-white/20") &&
  (h.backgroundColor == "")

/-- The translucent appearance: backdrop blur, lightened border, conflicting
static classes removed, inline rgba fill set. -/
def isTranslucent (h : HeaderElem) : Bool :=
  hasClass h "backdrop-blur-md" && hasClass h "border-white/20" &&
  !(hasClass h "bg-white") && !(hasClass h "border-gray-200") &&
  (h.backgroundColor == "rgba(255, 255, 255, 0.75)")

/-! ### The two Tailwind theme configuration objects

`theme.extend` of `src/tailwind.config.mjs` and of the configuration file
embedded after the main text of `src/HEADER_IMPLEMENTATION.md`.  Both declare
a `primary` palette (a map from shade names to hex values), a `secondary`
color, an `accent` color and the `fontFamily.sans` list. -/

/-- The `theme.extend` object of a Tailwind configuration. -/
structure ThemeExtend where
  primary : List (String × String)
  secondary : String
  accent : String
  fontFamilySans : List String
deriving DecidableEq, Repr

/-- `theme.extend` of the Tailwind configuration embedded at the end of
`src/HEADER_IMPLEMENTATION.md`. -/
def headerDocThemeExtend : ThemeExtend :=
  { primary := [("DEFAULT", "#E85D00"), ("light", "#FF6B00"),
      ("dark", "#C75000")],
    secondary := "#1F2937",
    accent := "#F3F4F6",
    fontFamilySans := ["Inter", "sans-serif"] }

/-- `theme.extend` of `src/tailwind.config.mjs`. -/
def tailwindConfigThemeExtend : ThemeExtend :=
  { primary := [("DEFAULT", "#E85D00"), ("light", "#FF6B00")],
    secondary := "#1F2937",
    accent := "#F3F4F6",
    fontFamilySans := ["Inter", "sans-serif"] }

/-- Whether the configuration declares the named shade of `primary`. -/
def declaresPrimaryShade (t : ThemeExtend) (shade : String) : Bool :=
  (t.primary.map Prod.fst).contains shade

/-- Whether the configuration declares all three `primary` shades
`DEFAULT`, `light` and `dark`. -/
def declaresAllPrimaryShades (t : ThemeExtend) : Bool :=
  declaresPrimaryShade t "DEFAULT" && declaresPrimaryShade t "light" &&
    declaresPrimaryShade t "dark"

/-! ### Basic facts about the DOMTokenList operations -/

lemma contains_iff {cl : List String} {c : String} :
    cl.contains c = true ↔ c ∈ cl :=
  List.elem_iff

lemma contains_eq_false_iff {cl : List String} {c : String} :
    cl.contains c = false ↔ c ∉ cl := by
  constructor
  · intro h hmem
    rw [contains_iff.mpr hmem] at h
    cases h
  · intro h
    cases hc : cl.contains c
    · rfl
    · exact absurd (contains_iff.mp hc) h

lemma mem_domRemove {cl ns : List String} {c : String} :
    c ∈ domRemove cl ns ↔ c ∈ cl ∧ c ∉ ns := by
  simp only [domRemove, List.mem_filter, Bool.not_eq_true']
  rw [contains_eq_false_iff]

lemma mem_domAdd {cl ns : List String} {c : String} :
    c ∈ domAdd cl ns ↔ c ∈ cl ∨ c ∈ ns := by
  induction ns generalizing cl with
  | nil => simp [domAdd]
  | cons n ns ih =>
    have hstep : domAdd cl (n :: ns)
        = domAdd (if cl.contains n = true then cl else cl ++ [n]) ns := rfl
    rw [hstep]
    by_cases hn : n ∈ cl
    · rw [if_pos (contains_iff.mpr hn), ih]
      simp only [List.mem_cons]
      constructor
      · rintro (h | h)
        · exact Or.inl h
        · exact Or.inr (Or.inr h)
      · rintro (h | rfl | h)
        · exact Or.inl h
        · exact Or.inl hn
        · exact Or.inr h
    · rw [if_neg (fun hc => hn (contains_iff.mp hc)), ih]
      simp only [List.mem_append, List.mem_singleton, List.mem_cons]
      tauto

lemma contains_domAdd_of_mem (cl : List String) {ns : List String} {c : String}
    (hc : c ∈ ns) : (domAdd cl ns).contains c = true :=
  contains_iff.mpr (mem_domAdd.mpr (Or.inr hc))

lemma contains_domRemove_of_mem (cl : List String) {ns : List String}
    {c : String} (hc : c ∈ ns) : (domRemove cl ns).contains c = false :=
  contains_eq_false_iff.mpr (fun hmem => (mem_domRemove.mp hmem).2 hc)

lemma contains_domAdd_of_not_mem (cl : List String) {ns : List String}
    {c : String} (hc : c ∉ ns) :
    (domAdd cl ns).contains c = cl.contains c := by
  cases h : cl.contains c
  · exact contains_eq_false_iff.mpr (fun hmem =>
      (mem_domAdd.mp hmem).elim (contains_eq_false_iff.mp h) hc)
  · exact contains_iff.mpr (mem_domAdd.mpr (Or.inl (contains_iff.mp h)))

lemma contains_domRemove_of_not_mem (cl : List String) {ns : List String}
    {c : String} (hc : c ∉ ns) :
    (domRemove cl ns).contains c = cl.contains c := by
  cases h : cl.contains c
  · exact contains_eq_false_iff.mpr (fun hmem =>
      contains_eq_false_iff.mp h (mem_domRemove.mp hmem).1)
  · exact contains_iff.mpr (mem_domRemove.mpr ⟨contains_iff.mp h, hc⟩)

lemma domRemove_eq_self {cl ns : List String}
    (h : ∀ n ∈ ns, n ∉ cl) : domRemove cl ns = cl := by
  apply List.filter_eq_self.mpr
  intro a ha
  rw [Bool.not_eq_true', contains_eq_false_iff]
  exact fun hmem => h a hmem ha

lemma domAdd_eq_self {cl ns : List String}
    (h : ∀ n ∈ ns, n ∈ cl) : domAdd cl ns = cl := by
  induction ns with
  | nil => rfl
  | cons n ns ih =>
    have hstep : domAdd cl (n :: ns)
        = domAdd (if cl.contains n = true then cl else cl ++ [n]) ns := rfl
    rw [hstep, if_pos (contains_iff.mpr (h n (List.mem_cons_self n ns)))]
    exact ih (fun m hm => h m (List.mem_cons_of_mem _ hm))

/-! ### Class-level behaviour of the four mutation blocks -/

lemma applyAtTop_tyf (h : HeaderElem) :
    hasClass (applyAtTop h) "-translate-y-full" = false := by
  show (domAdd (domRemove h.classList _) _).contains _ = false
  rw [contains_domAdd_of_not_mem _ (by decide)]
  exact contains_domRemove_of_mem _ (by decide)

lemma applyAtTop_op0 (h : HeaderElem) :
    hasClass (applyAtTop h) "opacity-0" = false := by
  show (domAdd (domRemove h.classList _) _).contains _ = false
  rw [contains_domAdd_of_not_mem _ (by decide)]
  exact contains_domRemove_of_mem _ (by decide)

lemma applyAtTop_bbm (h : HeaderElem) :
    hasClass (applyAtTop h) "backdrop-blur-md" = false := by
  show (domAdd (domRemove h.classList _) _).contains _ = false
  rw [contains_domAdd_of_not_mem _ (by decide)]
  exact contains_domRemove_of_mem _ (by decide)

lemma applyAtTop_bw20 (h : HeaderElem) :
    hasClass (applyAtTop h) "border-white/20" = false := by
  show (domAdd (domRemove h.classList _) _).contains _ = false
  rw [contains_domAdd_of_not_mem _ (by decide)]
  exact contains_domRemove_of_mem _ (by decide)

lemma applyAtTop_bgw (h : HeaderElem) :
    hasClass (applyAtTop h) "bg-white" = true :=
  contains_domAdd_of_mem _ (by decide)

lemma applyAtTop_bg200 (h : HeaderElem) :
    hasClass (applyAtTop h) "border-gray-200" = true :=
  contains_domAdd_of_mem _ (by decide)

lemma applyAtTop_bg (h : HeaderElem) : (applyAtTop h).backgroundColor = "" :=
  rfl

lemma applyHide_tyf (h : HeaderElem) :
    hasClass (applyHide h) "-translate-y-full" = true :=
  contains_domAdd_of_mem _ (by decide)

lemma applyHide_op0 (h : HeaderElem) :
    hasClass (applyHide h) "opacity-0" = true :=
  contains_domAdd_of_mem _ (by decide)

lemma applyShow_tyf (h : HeaderElem) :
    hasClass (applyShow h) "-translate-y-full" = false :=
  contains_domRemove_of_mem _ (by decide)

lemma applyShow_op0 (h : HeaderElem) :
    hasClass (applyShow h) "opacity-0" = false :=
  contains_domRemove_of_mem _ (by decide)

lemma applyTranslucent_bbm (h : HeaderElem) :
    hasClass (applyTranslucent h) "backdrop-blur-md" = true :=
  contains_domAdd_of_mem _ (by decide)

lemma applyTranslucent_bw20 (h : HeaderElem) :
    hasClass (applyTranslucent h) "border-white/20" = true :=
  contains_domAdd_of_mem _ (by decide)

lemma applyTranslucent_bgw (h : HeaderElem) :
    hasClass (applyTranslucent h) "bg-white" = false := by
  show (domAdd (domRemove h.classList _) _).contains _ = false
  rw [contains_domAdd_of_not_mem _ (by decide)]
  exact contains_domRemove_of_mem _ (by decide)

lemma applyTranslucent_bg200 (h : HeaderElem) :
    hasClass (applyTranslucent h) "border-gray-200" = false := by
  show (domAdd (domRemove h.classList _) _).contains _ = false
  rw [contains_domAdd_of_not_mem _ (by decide)]
  exact contains_domRemove_of_mem _ (by decide)

lemma applyTranslucent_bg (h : HeaderElem) :
    (applyTranslucent h).backgroundColor = "rgba(255, 255, 255, 0.75)" :=
  rfl

lemma applyTranslucent_tyf (h : HeaderElem) :
    hasClass (applyTranslucent h) "-translate-y-full"
      = hasClass h "-translate-y-full" := by
  show (domAdd (domRemove h.classList _) _).contains _
      = h.classList.contains _
  rw [contains_domAdd_of_not_mem _ (by decide),
    contains_domRemove_of_not_mem _ (by decide)]

lemma applyTranslucent_op0 (h : HeaderElem) :
    hasClass (applyTranslucent h) "opacity-0" = hasClass h "opacity-0" := by
  show (domAdd (domRemove h.classList _) _).contains _
      = h.classList.contains _
  rw [contains_domAdd_of_not_mem _ (by decide),
    contains_domRemove_of_not_mem _ (by decide)]

lemma applyAtTop_form (h : HeaderElem) :
    isAtTop (applyAtTop h) = true ∧ isTranslucent (applyAtTop h) = false ∧
    isHidden (applyAtTop h) = false := by
  refine ⟨?_, ?_, ?_⟩
  · simp [isAtTop, applyAtTop_bbm, applyAtTop_bw20, applyAtTop_bgw,
      applyAtTop_bg200, applyAtTop_bg]
  · simp [isTranslucent, applyAtTop_bbm]
  · simp [isHidden, applyAtTop_tyf]

lemma applyTranslucent_form (h : HeaderElem) :
    isTranslucent (applyTranslucent h) = true ∧
    isAtTop (applyTranslucent h) = false := by
  constructor
  · simp [isTranslucent, applyTranslucent_bbm, applyTranslucent_bw20,
      applyTranslucent_bgw, applyTranslucent_bg200, applyTranslucent_bg]
  · simp [isAtTop, applyTranslucent_bgw]

lemma applyTranslucent_idem (h : HeaderElem) :
    applyTranslucent (applyTranslucent h) = applyTranslucent h := by
  have hmem1 : ∀ n ∈ ["border-gray-200", "bg-white"],
      n ∉ (applyTranslucent h).classList := by
    intro n hn hmem
    rw [show (applyTranslucent h).classList
        = domAdd (domRemove h.classList ["border-gray-200", "bg-white"])
          ["backdrop-blur-md", "border-white/20"] from rfl] at hmem
    rcases mem_domAdd.mp hmem with hA | hB
    · exact (mem_domRemove.mp hA).2 hn
    · rcases List.mem_cons.mp hn with rfl | hn2
      · exact absurd hB (by decide)
      · rcases List.mem_cons.mp hn2 with rfl | hn3
        · exact absurd hB (by decide)
        · cases hn3
  have hmem2 : ∀ n ∈ ["backdrop-blur-md", "border-white/20"],
      n ∈ (applyTranslucent h).classList := by
    intro n hn
    rw [show (applyTranslucent h).classList
        = domAdd (domRemove h.classList ["border-gray-200", "bg-white"])
          ["backdrop-blur-md", "border-white/20"] from rfl]
    exact mem_domAdd.mpr (Or.inr hn)
  have hcl : (applyTranslucent (applyTranslucent h)).classList
      = (applyTranslucent h).classList := by
    show domAdd (domRemove (applyTranslucent h).classList
        ["border-gray-200", "bg-white"]) ["backdrop-blur-md", "border-white/20"]
      = (applyTranslucent h).classList
    rw [domRemove_eq_self hmem1, domAdd_eq_self hmem2]
  calc applyTranslucent (applyTranslucent h)
      = ⟨(applyTranslucent (applyTranslucent h)).classList,
          (applyTranslucent (applyTranslucent h)).backgroundColor⟩ := rfl
    _ = applyTranslucent h := by
        rw [hcl]
        rfl

/-! ### Branch equations for one scroll notification -/

lemma handleScroll_nonpos_eq (s : ControllerState) (curr : Int)
    (hle : curr ≤ 0) :
    handleScroll s curr =
      { header := s.header.map applyAtTop, lastScroll := curr } := by
  unfold handleScroll
  rw [if_pos hle]

lemma handleScroll_lastScroll (s : ControllerState) (curr : Int) :
    (handleScroll s curr).lastScroll = curr := by
  unfold handleScroll
  by_cases hv : curr ≤ 0
  · rw [if_pos hv]
  · rw [if_neg hv]

lemma handleScroll_pos_down (h : HeaderElem) (last curr : Int)
    (hpos : 0 < curr) (hdown : last < curr)
    (hnothidden : hasClass h "-translate-y-full" = false) :
    handleScroll { header := some h, lastScroll := last } curr =
      { header := some (applyTranslucent (applyHide h)),
        lastScroll := curr } := by
  unfold handleScroll
  rw [if_neg (by omega : ¬ curr ≤ 0)]
  dsimp only
  simp only [Option.map_some', Option.getD_some, hnothidden, Bool.not_false,
    Bool.and_true, decide_eq_true hdown]
  rfl

lemma handleScroll_pos_up (h : HeaderElem) (last curr : Int)
    (hpos : 0 < curr) (hup : curr < last)
    (hhidden : hasClass h "-translate-y-full" = true) :
    handleScroll { header := some h, lastScroll := last } curr =
      { header := some (applyTranslucent (applyShow h)),
        lastScroll := curr } := by
  unfold handleScroll
  rw [if_neg (by omega : ¬ curr ≤ 0)]
  dsimp only
  simp only [Option.map_some', Option.getD_some, hhidden, Bool.not_true,
    Bool.and_false, Bool.and_true, decide_eq_true hup]
  rfl

lemma handleScroll_pos_neither (h : HeaderElem) (last curr : Int)
    (hpos : 0 < curr)
    (hb2 : ¬ last < curr ∨ hasClass h "-translate-y-full" = true)
    (hb3 : ¬ curr < last ∨ hasClass h "-translate-y-full" = false) :
    handleScroll { header := some h, lastScroll := last } curr =
      { header := some (applyTranslucent h), lastScroll := curr } := by
  have hc2 : (decide (last < curr) && !(hasClass h "-translate-y-full"))
      = false := by
    rcases hb2 with h2 | h2 <;> simp [h2]
  have hc3 : (decide (curr < last) && hasClass h "-translate-y-full")
      = false := by
    rcases hb3 with h3 | h3 <;> simp [h3]
  unfold handleScroll
  rw [if_neg (by omega : ¬ curr ≤ 0)]
  dsimp only
  simp only [Option.map_some', Option.getD_some, hc2, hc3]
  rfl

lemma handleScroll_none (last curr : Int) :
    handleScroll { header := none, lastScroll := last } curr =
      { header := none, lastScroll := curr } := by
  by_cases hv : curr ≤ 0
  · rw [handleScroll_nonpos_eq _ _ hv]
    rfl
  · unfold handleScroll
    rw [if_neg hv]
    dsimp only
    simp only [Option.map_none', Option.getD_none, ite_self]

lemma handleScroll_pos_translucent (h : HeaderElem) (last curr : Int)
    (hpos : 0 < curr) :
    ∃ h₀, (handleScroll { header := some h, lastScroll := last } curr).header
        = some (applyTranslucent h₀) := by
  cases hhid : hasClass h "-translate-y-full"
  · rcases lt_trichotomy last curr with hlt | heq | hgt
    · rw [handleScroll_pos_down h last curr hpos hlt hhid]
      exact ⟨_, rfl⟩
    · rw [handleScroll_pos_neither h last curr hpos (Or.inl (by omega))
        (Or.inr hhid)]
      exact ⟨_, rfl⟩
    · rw [handleScroll_pos_neither h last curr hpos (Or.inl (by omega))
        (Or.inr hhid)]
      exact ⟨_, rfl⟩
  · rcases lt_trichotomy last curr with hlt | heq | hgt
    · rw [handleScroll_pos_neither h last curr hpos (Or.inr hhid)
        (Or.inl (by omega))]
      exact ⟨_, rfl⟩
    · rw [handleScroll_pos_neither h last curr hpos (Or.inr hhid)
        (Or.inl (by omega))]
      exact ⟨_, rfl⟩
    · rw [handleScroll_pos_up h last curr hpos hgt hhid]
      exact ⟨_, rfl⟩

lemma handleScroll_step_form (s : ControllerState) (h : HeaderElem) (v : Int)
    (hh : s.header = some h) :
    ∃ h', (handleScroll s v).header = some h' ∧
      ((isAtTop h' = true ∧ isTranslucent h' = false ∧ isHidden h' = false) ∨
       (isAtTop h' = false ∧ isTranslucent h' = true)) := by
  cases s with
  | mk sh sl =>
    cases hh
    by_cases hv : v ≤ 0
    · rw [handleScroll_nonpos_eq _ _ hv]
      obtain ⟨h1, h2, h3⟩ := applyAtTop_form h
      exact ⟨applyAtTop h, rfl, Or.inl ⟨h1, h2, h3⟩⟩
    · rcases handleScroll_pos_translucent h sl v (by omega) with ⟨h₀, hh₀⟩
      obtain ⟨h1, h2⟩ := applyTranslucent_form h₀
      exact ⟨applyTranslucent h₀, hh₀, Or.inr ⟨h2, h1⟩⟩

lemma foldl_handleScroll_form (signals : List Int) (s : ControllerState)
    (h : HeaderElem) (hh : s.header = some h) (hne : signals ≠ []) :
    ∃ h', (signals.foldl handleScroll s).header = some h' ∧
      ((isAtTop h' = true ∧ isTranslucent h' = false ∧ isHidden h' = false) ∨
       (isAtTop h' = false ∧ isTranslucent h' = true)) := by
  induction signals generalizing s h with
  | nil => exact absurd rfl hne
  | cons v vs ih =>
    rw [List.foldl_cons]
    rcases handleScroll_step_form s h v hh with ⟨h1, hh1, hform⟩
    by_cases hvs : vs = []
    · subst hvs
      rw [List.foldl_nil]
      exact ⟨h1, hh1, hform⟩
    · exact ih (handleScroll s v) h1 hh1 hvs

lemma runScroll_form (signals : List Int) (hne : signals ≠ []) :
    ∃ h', (runScroll signals).header = some h' ∧
      ((isAtTop h' = true ∧ isTranslucent h' = false ∧ isHidden h' = false) ∨
       (isAtTop h' = false ∧ isTranslucent h' = true)) :=
  foldl_handleScroll_form signals initialState initialHeader rfl hne

lemma handleScroll_pos_header_translucent (s : ControllerState) (v : Int)
    (hpos : 0 < v) (h1 : HeaderElem) (hh : (handleScroll s v).header = some h1) :
    ∃ h₀, h1 = applyTranslucent h₀ := by
  cases s with
  | mk sh sl =>
    cases sh with
    | none =>
      rw [handleScroll_none] at hh
      exact Option.noConfusion hh
    | some h =>
      rcases handleScroll_pos_translucent h sl v hpos with ⟨h₀, hh₀⟩
      rw [hh₀] at hh
      exact ⟨h₀, (Option.some_inj.mp hh).symm⟩

/-! ## Claims -/

/-- C1: for every nonempty sequence of scroll notifications starting from the
initial state, at the end of the sequence, whenever the hidden flags are
absent, exactly one of the atTop appearance and the translucent appearance
holds on the header element. -/
theorem C1_atTop_translucent_exclusive (signals : List Int)
    (hne : signals ≠ []) :
    ∃ h', (runScroll signals).header = some h' ∧
      (isHidden h' = false →
        ((isAtTop h' = true ∧ isTranslucent h' = false) ∨
         (isAtTop h' = false ∧ isTranslucent h' = true))) := by
  rcases runScroll_form signals hne with ⟨h', hh, hform⟩
  refine ⟨h', hh, fun _ => ?_⟩
  rcases hform with ⟨a, b, _⟩ | ⟨a, b⟩
  · exact Or.inl ⟨a, b⟩
  · exact Or.inr ⟨a, b⟩

/-- Witness for C1 at the concrete notification sequence 0, 30, 20. -/
theorem C1_witness :
    ∃ h', (runScroll [0, 30, 20]).header = some h' ∧
      (isHidden h' = false →
        ((isAtTop h' = true ∧ isTranslucent h' = false) ∨
         (isAtTop h' = false ∧ isTranslucent h' = true))) :=
  C1_atTop_translucent_exclusive [0, 30, 20] (by decide)

/-- C2: a notification with ScrollSignal ≤ 0 forces the atTop state from any
prior header state and any PreviousScrollSignal: the hidden flags and the
translucency flags are cleared, the inline fill is removed, and the atTop
classes are set. -/
theorem C2_top_forces_atTop (h : HeaderElem) (last curr : Int)
    (hle : curr ≤ 0) :
    ∃ h', (handleScroll { header := some h, lastScroll := last } curr).header
        = some h' ∧
      hasClass h' "-translate-y-full" = false ∧
      hasClass h' "opacity-0" = false ∧
      hasClass h' "backdrop-blur-md" = false ∧
      hasClass h' "border-white/20" = false ∧
      h'.backgroundColor = "" ∧
      hasClass h' "bg-white" = true ∧
      hasClass h' "border-gray-200" = true := by
  rw [handleScroll_nonpos_eq _ _ hle]
  exact ⟨applyAtTop h, rfl, applyAtTop_tyf h, applyAtTop_op0 h,
    applyAtTop_bbm h, applyAtTop_bw20 h, applyAtTop_bg h,
    applyAtTop_bgw h, applyAtTop_bg200 h⟩

/-- Witness for C2 at a hidden translucent prior header, lastScroll 100 and
ScrollSignal 0. -/
theorem C2_witness :
    ∃ h', (handleScroll
        { header := some (applyTranslucent (applyHide initialHeader)),
          lastScroll := 100 } 0).header = some h' ∧
      hasClass h' "-translate-y-full" = false ∧
      hasClass h' "opacity-0" = false ∧
      hasClass h' "backdrop-blur-md" = false ∧
      hasClass h' "border-white/20" = false ∧
      h'.backgroundColor = "" ∧
      hasClass h' "bg-white" = true ∧
      hasClass h' "border-gray-200" = true :=
  C2_top_forces_atTop (applyTranslucent (applyHide initialHeader)) 100 0
    (by decide)

/-- C3 counterexample: with the header element absent, the notification with
ScrollSignal 5 from lastScroll 0 does mutate state — the lastScroll cell
becomes 5, so the claim that no state at all changes is false. -/
theorem C3_counterexample :
    (handleScroll { header := none, lastScroll := 0 } 5).lastScroll ≠ 0 := by
  decide

/-- C3 (amended): with the header element absent the handler is a total
function (no exception) and performs no header mutation; its only effect is
setting the lastScroll cell to the sampled ScrollSignal. -/
theorem C3_absent_header_noop (last curr : Int) :
    handleScroll { header := none, lastScroll := last } curr =
      { header := none, lastScroll := curr } :=
  handleScroll_none last curr

/-- C4: from the initial state the ScrollSignal sequence 0, 30, 20 yields
atTop after the first notification, the hidden flags after the second, and a
shown translucent header after the third. -/
theorem C4_sequence_0_30_20 :
    (runScroll [0]).header.map isAtTop = some true ∧
    (runScroll [0]).header.map isHidden = some false ∧
    (runScroll [0, 30]).header.map isHidden = some true ∧
    (runScroll [0, 30, 20]).header.map isHidden = some false ∧
    (runScroll [0, 30, 20]).header.map isTranslucent = some true := by
  decide

/-- C5: a notification with ScrollSignal > 0 that is strictly greater than
PreviousScrollSignal, when the header does not carry the hidden marker
class, sets both hidden flags. -/
theorem C5_scroll_down_hides (h : HeaderElem) (last curr : Int)
    (hpos : 0 < curr) (hdown : last < curr)
    (hnothidden : hasClass h "-translate-y-full" = false) :
    ∃ h', (handleScroll { header := some h, lastScroll := last } curr).header
        = some h' ∧
      hasClass h' "-translate-y-full" = true ∧
      hasClass h' "opacity-0" = true ∧
      isHidden h' = true := by
  rw [handleScroll_pos_down h last curr hpos hdown hnothidden]
  refine ⟨applyTranslucent (applyHide h), rfl, ?_, ?_, ?_⟩
  · rw [applyTranslucent_tyf]
    exact applyHide_tyf h
  · rw [applyTranslucent_op0]
    exact applyHide_op0 h
  · simp [isHidden, applyTranslucent_tyf, applyTranslucent_op0,
      applyHide_tyf, applyHide_op0]

/-- Witness for C5 at PreviousScrollSignal 5 and ScrollSignal 50 from the
initial header. -/
theorem C5_witness :
    ∃ h', (handleScroll { header := some initialHeader, lastScroll := 5 }
        50).header = some h' ∧
      hasClass h' "-translate-y-full" = true ∧
      hasClass h' "opacity-0" = true ∧
      isHidden h' = true :=
  C5_scroll_down_hides initialHeader 5 50 (by decide) (by decide) (by decide)

/-- C6: a notification with ScrollSignal > 0 that is strictly less than
PreviousScrollSignal, when the header carries the hidden marker class,
clears both hidden flags. -/
theorem C6_scroll_up_shows (h : HeaderElem) (last curr : Int)
    (hpos : 0 < curr) (hup : curr < last)
    (hhidden : hasClass h "-translate-y-full" = true) :
    ∃ h', (handleScroll { header := some h, lastScroll := last } curr).header
        = some h' ∧
      hasClass h' "-translate-y-full" = false ∧
      hasClass h' "opacity-0" = false ∧
      isHidden h' = false := by
  rw [handleScroll_pos_up h last curr hpos hup hhidden]
  refine ⟨applyTranslucent (applyShow h), rfl, ?_, ?_, ?_⟩
  · rw [applyTranslucent_tyf]
    exact applyShow_tyf h
  · rw [applyTranslucent_op0]
    exact applyShow_op0 h
  · simp [isHidden, applyTranslucent_tyf, applyShow_tyf]

/-- Witness for C6 at a hidden prior header, PreviousScrollSignal 50 and
ScrollSignal 40. -/
theorem C6_witness :
    ∃ h', (handleScroll
        { header := some (applyHide initialHeader),
          lastScroll := 50 } 40).header = some h' ∧
      hasClass h' "-translate-y-full" = false ∧
      hasClass h' "opacity-0" = false ∧
      isHidden h' = false :=
  C6_scroll_up_shows (applyHide initialHeader) 50 40 (by decide) (by decide)
    (by decide)

/-- C7: every notification with ScrollSignal > 0 sets the translucent
appearance — backdrop-blur-md and border-white/20 added, bg-white and
border-gray-200 removed, inline fill set to rgba(255, 255, 255, 0.75) —
regardless of whether either direction-dependent rule fires. -/
theorem C7_scrolled_sets_translucent (h : HeaderElem) (last curr : Int)
    (hpos : 0 < curr) :
    ∃ h', (handleScroll { header := some h, lastScroll := last } curr).header
        = some h' ∧
      hasClass h' "backdrop-blur-md" = true ∧
      hasClass h' "border-white/20" = true ∧
      hasClass h' "bg-white" = false ∧
      hasClass h' "border-gray-200" = false ∧
      h'.backgroundColor = "rgba(255, 255, 255, 0.75)" := by
  rcases handleScroll_pos_translucent h last curr hpos with ⟨h₀, hh₀⟩
  exact ⟨applyTranslucent h₀, hh₀, applyTranslucent_bbm h₀,
    applyTranslucent_bw20 h₀, applyTranslucent_bgw h₀,
    applyTranslucent_bg200 h₀, applyTranslucent_bg h₀⟩

/-- Witness for C7 at the no-movement case ScrollSignal =
PreviousScrollSignal = 7. -/
theorem C7_witness :
    ∃ h', (handleScroll { header := some initialHeader, lastScroll := 7 }
        7).header = some h' ∧
      hasClass h' "backdrop-blur-md" = true ∧
      hasClass h' "border-white/20" = true ∧
      hasClass h' "bg-white" = false ∧
      hasClass h' "border-gray-200" = false ∧
      h'.backgroundColor = "rgba(255, 255, 255, 0.75)" :=
  C7_scrolled_sets_translucent initialHeader 7 7 (by decide)

/-- C8: delivering the same positive ScrollSignal twice in a row is
idempotent — the second invocation produces a state identical to the state
after the first. -/
theorem C8_repeat_idempotent (s : ControllerState) (v : Int) (hpos : 0 < v) :
    handleScroll (handleScroll s v) v = handleScroll s v := by
  have hlast : (handleScroll s v).lastScroll = v := handleScroll_lastScroll s v
  cases hh : (handleScroll s v).header with
  | none =>
    have hs1 : handleScroll s v = { header := none, lastScroll := v } := by
      have hrfl : handleScroll s v
          = { header := (handleScroll s v).header,
              lastScroll := (handleScroll s v).lastScroll } := rfl
      rw [hrfl, hh, hlast]
    rw [hs1, handleScroll_none]
  | some h1 =>
    have hs1 : handleScroll s v = { header := some h1, lastScroll := v } := by
      have hrfl : handleScroll s v
          = { header := (handleScroll s v).header,
              lastScroll := (handleScroll s v).lastScroll } := rfl
      rw [hrfl, hh, hlast]
    rcases handleScroll_pos_header_translucent s v hpos h1 hh with ⟨h₀, rfl⟩
    rw [hs1, handleScroll_pos_neither (applyTranslucent h₀) v v hpos
      (Or.inl (by omega)) (Or.inl (by omega)), applyTranslucent_idem]

/-- Witness for C8 at the initial state and ScrollSignal 40. -/
theorem C8_witness :
    handleScroll (handleScroll initialState 40) 40
      = handleScroll initialState 40 :=
  C8_repeat_idempotent initialState 40 (by decide)

/-- C9 counterexample: `tailwind.config.mjs` does not declare all three
primary shades — its `dark` shade is missing — so the claim that both theme
configuration objects declare DEFAULT, light and dark is false. -/
theorem C9_counterexample :
    declaresAllPrimaryShades tailwindConfigThemeExtend = false := by
  decide

/-- C9 (amended): the configuration embedded in HEADER_IMPLEMENTATION.md
declares primary with all three shades DEFAULT, light and dark plus
secondary, accent and the sans font list; `tailwind.config.mjs` declares
only DEFAULT and light (no dark) plus secondary, accent and the sans font
list. -/
theorem C9_theme_shades :
    (declaresPrimaryShade headerDocThemeExtend "DEFAULT" = true ∧
     declaresPrimaryShade headerDocThemeExtend "light" = true ∧
     declaresPrimaryShade headerDocThemeExtend "dark" = true ∧
     headerDocThemeExtend.secondary = "#1F2937" ∧
     headerDocThemeExtend.accent = "#F3F4F6" ∧
     headerDocThemeExtend.fontFamilySans = ["Inter", "sans-serif"]) ∧
    (declaresPrimaryShade tailwindConfigThemeExtend "DEFAULT" = true ∧
     declaresPrimaryShade tailwindConfigThemeExtend "light" = true ∧
     declaresPrimaryShade tailwindConfigThemeExtend "dark" = false ∧
     tailwindConfigThemeExtend.secondary = "#1F2937" ∧
     tailwindConfigThemeExtend.accent = "#F3F4F6" ∧
     tailwindConfigThemeExtend.fontFamilySans = ["Inter", "sans-serif"]) := by
  decide

/-- C10: for every nonempty sequence of scroll notifications from the
initial state, if the hidden flags are present at the end then the
translucent appearance is also present and the atTop appearance is not. -/
theorem C10_hidden_implies_translucent (signals : List Int)
    (hne : signals ≠ []) :
    ∃ h', (runScroll signals).header = some h' ∧
      (isHidden h' = true →
        isTranslucent h' = true ∧ isAtTop h' = false) := by
  rcases runScroll_form signals hne with ⟨h', hh, hform⟩
  refine ⟨h', hh, fun hhid => ?_⟩
  rcases hform with ⟨_, _, c⟩ | ⟨a, b⟩
  · rw [hhid] at c
    exact Bool.noConfusion c
  · exact ⟨b, a⟩

/-- Witness for C10 at the concrete notification sequence 0, 30, which ends
with the hidden flags set. -/
theorem C10_witness :
    ∃ h', (runScroll [0, 30]).header = some h' ∧
      (isHidden h' = true →
        isTranslucent h' = true ∧ isAtTop h' = false) :=
  C10_hidden_implies_translucent [0, 30] (by decide)

end Dextor
